import Mathlib

set_option linter.unnecessarySeqFocus false

/-!
Shallow embedding of the session/identity coordinator of
`src/features/auth/contexts/AuthProvider.tsx` and of the Instagram analysis
mutation of `src/features/homepage/hooks/useInstagramAnalysis.ts`.

State hooks of the provider become fields of an explicit state record; each
async callback of the source (bootstrap resolution, auth-state-change
delivery, loader settlement, the public actions) becomes a pure state
transformer parameterised by the outcome of the external call it awaited.
The host runtime is single-threaded and cooperative, so each callback runs
to completion; a transformer per callback is a faithful model.
-/

namespace Oslira

/-- `User` as used by the provider: an identity record carried inside a
session (`@supabase/supabase-js` `User`, fields beyond `id`/`email` unused). -/
structure User where
  id : String
  email : String
  deriving Repr, DecidableEq

/-- `Session`: credential bundle with an access token and an embedded user
(`@supabase/supabase-js` `Session`; `user` is non-nullable there). -/
structure Session where
  access_token : String
  user : User
  deriving Repr, DecidableEq

/-- `Business` record, from the `interface Business` in AuthProvider.tsx. -/
structure Business where
  id : String
  name : String
  industry : Option String
  created_at : String
  deriving Repr, DecidableEq

/-- `UserSubscription` shape as constructed in `loadSubscription`.
Timestamps are milliseconds since epoch (`Date.now()`), modelled as `Nat`. -/
structure UserSubscription where
  id : String
  user_id : String
  plan : String
  status : String
  credits : Nat
  credits_used : Nat
  period_start : Nat
  period_end : Nat
  deriving Repr, DecidableEq

/-- The provider's mutable state: the eight `useState` hooks of
`AuthProvider`, plus `persisted`, the value stored in `localStorage` under
the key "oslira-selected-business" (`none` = key absent). -/
structure AuthS where
  user : Option User
  session : Option Session
  isAuthenticated : Bool
  isLoading : Bool
  error : Option String
  businesses : List Business
  selectedBusiness : Option Business
  subscription : Option UserSubscription
  persisted : Option String
  deriving Repr, DecidableEq

/-- Initial hook values: everything null/false/empty except `isLoading = true`.
`p0` is whatever the browser already holds under the persisted key. -/
def initState (p0 : Option String) : AuthS :=
  { user := none
    session := none
    isAuthenticated := false
    isLoading := true
    error := none
    businesses := []
    selectedBusiness := none
    subscription := none
    persisted := p0 }

/-- Result of an awaited `supabase.auth.getSession()` call: either the
promise rejected (`threw`), or it resolved with `{ data: { session }, error }`. -/
inductive GetSessionResult where
  | threw (msg : String)
  | resolved (session : Option Session) (err : Option String)
  deriving Repr, DecidableEq

/-- Generic `{ success, data }` envelope returned by `httpClient.get`. -/
structure ApiResponse (α : Type) where
  success : Bool
  data : Option α
  deriving Repr, DecidableEq

/-- Outcome of an awaited `httpClient.get` call: resolved envelope or a
thrown exception. -/
inductive FetchOutcome (α : Type) where
  | ok (resp : ApiResponse α)
  | threw (msg : String)
  deriving Repr, DecidableEq

/-- The synthesized free-tier record built in both fallback branches of
`loadSubscription` (literal object at lines 105-114 and 121-130). -/
def defaultFreeSub (userId : String) (now : Nat) : UserSubscription :=
  { id := ""
    user_id := userId
    plan := "free"
    status := "active"
    credits := 25
    credits_used := 0
    period_start := now
    period_end := now + 30 * 24 * 60 * 60 * 1000 }

/-- `initializeAuth` resolution (lines 143-212): the synchronous tail that
runs once `getSession()` settles. `mounted` is the liveness flag read at
that moment. On a clean session: store session/user, set authenticated
(derived loads are fired separately). With no session or a reported
`sessionError`: unauthenticated shape, `error` untouched. On a thrown
exception: record the message and force the unauthenticated shape. The
`finally` clears `isLoading` whenever still mounted. -/
def initializeAuth (mounted : Bool) (r : GetSessionResult) (s : AuthS) : AuthS :=
  match r with
  | .threw msg =>
      if mounted then
        { s with error := some msg, session := none, user := none,
                 isAuthenticated := false, isLoading := false }
      else s
  | .resolved sess err =>
      if mounted then
        match sess, err with
        | some session, none =>
            { s with session := some session, user := some session.user,
                     isAuthenticated := true, isLoading := false }
        | _, _ =>
            { s with session := none, user := none,
                     isAuthenticated := false, isLoading := false }
      else s

/-- The `onAuthStateChange` callback (lines 220-256). `mounted` is the
liveness flag; after teardown the subscription is also released, so the
callback never fires, but the flag alone already suppresses writes. With a
session: store it and mark authenticated (loader scheduling is a separate
deferred task). Without one: clear session, user, isAuthenticated,
businesses, selectedBusiness and subscription. The persisted key is not
touched here. -/
def onAuthStateChange (mounted : Bool) (newSession : Option Session) (s : AuthS) : AuthS :=
  if mounted then
    match newSession with
    | some sess =>
        { s with session := some sess, user := some sess.user, isAuthenticated := true }
    | none =>
        { s with session := none, user := none, isAuthenticated := false,
                 businesses := [], selectedBusiness := none, subscription := none }
  else s

/-- `loadBusinesses` (lines 67-90), given the settled fetch outcome. On
`success && data`: replace the set; if the new set is non-empty and nothing
was selected, select its first element and persist that id. Every other
path leaves the state untouched. -/
def loadBusinesses (r : FetchOutcome (List Business)) (s : AuthS) : AuthS :=
  match r with
  | .ok resp =>
      match resp.success, resp.data with
      | true, some d =>
          let s1 := { s with businesses := d }
          if d.length > 0 ∧ s.selectedBusiness = none then
            match d.head? with
            | some first =>
                { s1 with selectedBusiness := some first, persisted := some first.id }
            | none => s1
          else s1
      | _, _ => s
  | .threw _ => s

/-- `loadSubscription` (lines 96-132), given the settled fetch outcome. On
`success && data`: store the server record. Otherwise (no data, unsuccessful
envelope, or thrown error): store the synthesized free-tier record. -/
def loadSubscription (userId : String) (now : Nat)
    (r : FetchOutcome UserSubscription) (s : AuthS) : AuthS :=
  match r with
  | .ok resp =>
      match resp.success, resp.data with
      | true, some d => { s with subscription := some d }
      | _, _ => { s with subscription := some (defaultFreeSub userId now) }
  | .threw _ => { s with subscription := some (defaultFreeSub userId now) }

/-- `selectBusiness` (lines 284-291): look the id up in the current set;
if found, select it and persist its id; otherwise do nothing. -/
def selectBusiness (businessId : String) (s : AuthS) : AuthS :=
  match s.businesses.find? (fun b => b.id == businessId) with
  | some business =>
      { s with selectedBusiness := some business, persisted := some business.id }
  | none => s

/-- `signInWithOAuth` (lines 293-314), collapsed over the awaited provider
call: sets `isLoading := true`, clears `error`; on a reported sign-in error
records the message (and re-raises to the caller); the `finally` resets
`isLoading` on both paths. -/
def signInWithOAuth (providerErr : Option String) (s : AuthS) : AuthS :=
  match providerErr with
  | some msg => { s with error := some msg, isLoading := false }
  | none => { s with error := none, isLoading := false }

/-- `signOut` (lines 316-334), collapsed over the awaited provider call:
sets `isLoading := true`, clears `error`; on success removes the persisted
selection key; on a reported error records the message (and re-raises);
the `finally` resets `isLoading` on both paths. State clearing itself is
left to the sign-out transition delivered through `onAuthStateChange`. -/
def signOut (providerErr : Option String) (s : AuthS) : AuthS :=
  match providerErr with
  | some msg => { s with error := some msg, isLoading := false }
  | none => { s with error := none, persisted := none, isLoading := false }

/-- One coordinator transition: each constructor is one of the callbacks or
actions above, at an arbitrary external outcome. -/
inductive Step : AuthS → AuthS → Prop where
  | bootstrap (m : Bool) (r : GetSessionResult) (s : AuthS) :
      Step s (initializeAuth m r s)
  | authChange (m : Bool) (ns : Option Session) (s : AuthS) :
      Step s (onAuthStateChange m ns s)
  | loadBiz (r : FetchOutcome (List Business)) (s : AuthS) :
      Step s (loadBusinesses r s)
  | loadSub (uid : String) (now : Nat) (r : FetchOutcome UserSubscription) (s : AuthS) :
      Step s (loadSubscription uid now r s)
  | select (bid : String) (s : AuthS) :
      Step s (selectBusiness bid s)
  | signInAct (e : Option String) (s : AuthS) :
      Step s (signInWithOAuth e s)
  | signOutAct (e : Option String) (s : AuthS) :
      Step s (signOut e s)

/-- States the coordinator can reach from its initial hook values, under any
interleaving of callback deliveries and external outcomes. -/
inductive Reachable : AuthS → Prop where
  | init (p0 : Option String) : Reachable (initState p0)
  | step {s t : AuthS} : Reachable s → Step s t → Reachable t

/-! ### Instagram analysis mutation
(`src/features/homepage/hooks/useInstagramAnalysis.ts`, `mutationFn`). -/

/-- Modelled from the spec: the result shape of `analyzeInstagramAnonymous` /
`generateDemoResults` lives in `../api/instagramApi`, which the excerpt does
not include and the spec treats as an external collaborator; only its
identity matters to the mutation's control flow, so it is an abstract record
tagging the username it was produced for and whether it is demo data. -/
structure InstagramAnalysisResponse where
  username : String
  isDemo : Bool
  deriving Repr, DecidableEq

/-- Outcome of the awaited `analyzeInstagramAnonymous(cleanUsername)` call:
success, a rate-limit error (the class `isRateLimitError` recognises,
carrying `metadata.remaining` / `metadata.resetIn`), or any other failure. -/
inductive AnalysisApiOutcome where
  | ok (r : InstagramAnalysisResponse)
  | rateLimit (remaining resetIn : Nat)
  | failed (msg : String)
  deriving Repr, DecidableEq

/-- Errors the mutation itself throws to its caller. -/
inductive MutationError where
  | emptyUsername (msg : String)
  | rateLimited (remaining resetIn : Nat)
  deriving Repr, DecidableEq

/-- Modelled from the spec: `generateDemoResults` of the absent
`instagramApi` module; abstract constructor producing demo data for the
given cleaned username. -/
def generateDemoResults (cleanUsername : String) : InstagramAnalysisResponse :=
  { username := cleanUsername, isDemo := true }

/-- JS `String.prototype.replace('@', '')` with a string pattern replaces
only the first occurrence. -/
def removeFirstAtSign : List Char → List Char
  | [] => []
  | c :: cs => if c = '@' then cs else c :: removeFirstAtSign cs

/-- JS `String.prototype.trim()`: strip whitespace from both ends. -/
def jsTrim (s : String) : String :=
  String.mk (((s.data.dropWhile Char.isWhitespace).reverse.dropWhile Char.isWhitespace).reverse)

/-- `username.trim().replace('@', '')` (useInstagramAnalysis.ts line 36). -/
def cleanUsername (username : String) : String :=
  String.mk (removeFirstAtSign (jsTrim username).data)

/-- What one `mutationFn` invocation did: whether the API was called, and
what the mutation's promise settled to. -/
structure MutationRun where
  apiCalled : Bool
  result : Except MutationError InstagramAnalysisResponse
  deriving Repr

/-- `mutationFn` (useInstagramAnalysis.ts lines 34-71): clean the username;
if empty, throw without calling the API. Otherwise call the API: pass a
success through; re-throw a rate-limit error; on any other failure resolve
with generated demo results. -/
def mutationFn (username : String) (api : AnalysisApiOutcome) : MutationRun :=
  let c := cleanUsername username
  if c.isEmpty then
    { apiCalled := false,
      result := .error (.emptyUsername "Please enter an Instagram username") }
  else
    match api with
    | .ok r => { apiCalled := true, result := .ok r }
    | .rateLimit remaining resetIn =>
        { apiCalled := true, result := .error (.rateLimited remaining resetIn) }
    | .failed _ => { apiCalled := true, result := .ok (generateDemoResults c) }

/-! ### Concrete fixtures used in witnesses and counterexamples. -/

/-- A concrete user. -/
def user1 : User := { id := "u1", email := "u1@example.com" }

/-- A concrete session for `user1`. -/
def sess1 : Session := { access_token := "tok1", user := user1 }

/-- A concrete business with id "a". -/
def bizA : Business := { id := "a", name := "Acme", industry := none, created_at := "2024-01-01" }

/-- A concrete business with id "b". -/
def bizB : Business := { id := "b", name := "Bolt", industry := some "tech", created_at := "2024-02-02" }

/-- A concrete server-side subscription record. -/
def subPro : UserSubscription :=
  { id := "sub1", user_id := "u1", plan := "pro", status := "active",
    credits := 100, credits_used := 3, period_start := 0, period_end := 999 }

/-- State after: bootstrap resolves with `sess1`, then the business load
settles with `[bizA]` (selecting and persisting "a"). -/
def sAfterLoad : AuthS :=
  loadBusinesses (.ok { success := true, data := some [bizA] })
    (initializeAuth true (.resolved (some sess1) none) (initState none))

/-- `sAfterLoad` after the subscription load also settles with `subPro`:
an authenticated session whose derived-load cycle has completed. -/
def sCycle : AuthS :=
  loadSubscription "u1" 0 (.ok { success := true, data := some subPro }) sAfterLoad

/-- `sAfterLoad` after a second business load settles with `[bizB]`. -/
def sTwoLoads : AuthS :=
  loadBusinesses (.ok { success := true, data := some [bizB] }) sAfterLoad

/-! ### Theorems for the claims. -/

/-- C3. After every coordinator transition — bootstrap resolution, any
event-listener transition, any action — `isAuthenticated` is true iff both
`session` and `user` are non-null: the equivalence holds in every reachable
state. -/
theorem reachable_isAuthenticated_iff (s : AuthS) (h : Reachable s) :
    s.isAuthenticated = true ↔ (s.session ≠ none ∧ s.user ≠ none) := by
  induction h with
  | init p0 => simp [initState]
  | step _ hstep ih =>
      cases hstep with
      | bootstrap m r s =>
          cases r with
          | threw msg => cases m <;> simp [initializeAuth, ih]
          | resolved sess err =>
              cases m with
              | false => simpa [initializeAuth] using ih
              | true => cases sess <;> cases err <;> simp [initializeAuth]
      | authChange m ns s =>
          cases m with
          | false => simpa [onAuthStateChange] using ih
          | true => cases ns <;> simp [onAuthStateChange]
      | loadBiz r s =>
          cases r with
          | ok resp =>
              rcases resp with ⟨su, da⟩
              cases su <;> cases da <;>
                simp [loadBusinesses, ih] <;>
                split <;> (try split) <;> simpa using ih
          | threw msg => simpa [loadBusinesses] using ih
      | loadSub uid now r s =>
          cases r with
          | ok resp =>
              rcases resp with ⟨su, da⟩
              cases su <;> cases da <;> simpa [loadSubscription] using ih
          | threw msg => simpa [loadSubscription] using ih
      | select bid s =>
          unfold selectBusiness
          split <;> simpa using ih
      | signInAct e s => cases e <;> simpa [signInWithOAuth] using ih
      | signOutAct e s => cases e <;> simpa [signOut] using ih

/-- Witness for C3 at a concrete reachable state. -/
theorem reachable_isAuthenticated_iff_witness :
    (initState none).isAuthenticated = true ↔
      ((initState none).session ≠ none ∧ (initState none).user ≠ none) :=
  reachable_isAuthenticated_iff (initState none) (Reachable.init none)

/-- C8. `isLoading` discipline: every bootstrap resolution on a live
coordinator ends with `isLoading = false` (the single `finally`, run once
per bootstrap, and bootstrap runs once per coordinator); every
event-listener transition, loader settlement and selection leaves
`isLoading` unchanged, so it stays false; and the two explicit actions end
with `isLoading = false` on both their success and failure exit paths. -/
theorem isLoading_discipline :
    (∀ r s, (initializeAuth true r s).isLoading = false) ∧
    (∀ m ns s, (onAuthStateChange m ns s).isLoading = s.isLoading) ∧
    (∀ r s, (loadBusinesses r s).isLoading = s.isLoading) ∧
    (∀ uid now r s, (loadSubscription uid now r s).isLoading = s.isLoading) ∧
    (∀ bid s, (selectBusiness bid s).isLoading = s.isLoading) ∧
    (∀ e s, (signInWithOAuth e s).isLoading = false) ∧
    (∀ e s, (signOut e s).isLoading = false) := by
  refine ⟨?_, ?_, ?_, ?_, ?_, ?_, ?_⟩
  · intro r s
    cases r with
    | threw msg => simp [initializeAuth]
    | resolved sess err => cases sess <;> cases err <;> simp [initializeAuth]
  · intro m ns s
    cases m <;> cases ns <;> simp [onAuthStateChange]
  · intro r s
    cases r with
    | ok resp =>
        rcases resp with ⟨su, da⟩
        cases su <;> cases da <;>
          simp [loadBusinesses] <;> split <;> (try split) <;> simp
    | threw msg => simp [loadBusinesses]
  · intro uid now r s
    cases r with
    | ok resp =>
        rcases resp with ⟨su, da⟩
        cases su <;> cases da <;> simp [loadSubscription]
    | threw msg => simp [loadSubscription]
  · intro bid s
    unfold selectBusiness
    split <;> simp
  · intro e s
    cases e <;> simp [signInWithOAuth]
  · intro e s
    cases e <;> simp [signOut]

/-- C9. After teardown (`mounted = false`; the event subscription is also
released, so its callback never even fires), neither a late bootstrap
resolution nor a delivered auth-state-change event writes any state. -/
theorem teardown_no_writes :
    (∀ r s, initializeAuth false r s = s) ∧
    (∀ ns s, onAuthStateChange false ns s = s) := by
  constructor
  · intro r s
    cases r with
    | threw msg => simp [initializeAuth]
    | resolved sess err => simp [initializeAuth]
  · intro ns s
    simp [onAuthStateChange]

/-- C6. `selectBusiness id`: when some element of the current business set
has that id, the (first) matching business becomes selected and its id is
persisted under the selection key, the set itself unchanged; when no element
has that id, the call changes nothing at all — selection, persisted key and
every other field stay as they were. -/
theorem selectBusiness_found_or_noop (bid : String) (s : AuthS) :
    ((∃ b ∈ s.businesses, b.id = bid) →
      ∃ b, b ∈ s.businesses ∧ b.id = bid ∧
        (selectBusiness bid s).selectedBusiness = some b ∧
        (selectBusiness bid s).persisted = some b.id ∧
        (selectBusiness bid s).businesses = s.businesses ∧
        (selectBusiness bid s).error = s.error) ∧
    ((∀ b ∈ s.businesses, b.id ≠ bid) → selectBusiness bid s = s) := by
  constructor
  · rintro ⟨b, hb, hid⟩
    rcases hfind : s.businesses.find? (fun x => x.id == bid) with _ | c
    · rw [List.find?_eq_none] at hfind
      exact absurd (by simpa using hid) (by simpa using hfind b hb)
    · have hcmem : c ∈ s.businesses := List.mem_of_find?_eq_some hfind
      have hcid : c.id = bid := by simpa using List.find?_some hfind
      exact ⟨c, hcmem, hcid, by simp [selectBusiness, hfind]⟩
  · intro h
    have hnone : s.businesses.find? (fun x => x.id == bid) = none :=
      List.find?_eq_none.mpr (fun x hx => by simpa using h x hx)
    simp [selectBusiness, hnone]

/-- Witness for C6: with set `[bizA]`, selecting "a" stores `bizA` and
persists "a"; selecting "zzz" is the identity. -/
theorem selectBusiness_found_or_noop_witness :
    (∃ b, b ∈ ({ initState none with businesses := [bizA] } : AuthS).businesses ∧
        b.id = "a" ∧
        (selectBusiness "a" { initState none with businesses := [bizA] }).selectedBusiness = some b ∧
        (selectBusiness "a" { initState none with businesses := [bizA] }).persisted = some b.id ∧
        (selectBusiness "a" { initState none with businesses := [bizA] }).businesses =
          ({ initState none with businesses := [bizA] } : AuthS).businesses ∧
        (selectBusiness "a" { initState none with businesses := [bizA] }).error =
          ({ initState none with businesses := [bizA] } : AuthS).error) ∧
    selectBusiness "zzz" { initState none with businesses := [bizA] } =
      { initState none with businesses := [bizA] } :=
  ⟨(selectBusiness_found_or_noop "a" _).1 ⟨bizA, by simp [bizA], by simp [bizA]⟩,
   (selectBusiness_found_or_noop "zzz" _).2 (by intro b hb; simp [bizA] at hb; simp [hb, bizA])⟩

/-- C7. `loadSubscription`: a successful envelope carrying data stores the
server record; an unsuccessful envelope, a successful envelope with no data,
and a thrown fetch error all store the synthesized default free-tier record
(`plan="free"`, `status="active"`, `credits=25`, `credits_used=0`, a 30-day
period from `now`); on every path the stored subscription is non-null. -/
theorem loadSubscription_always_sets (uid : String) (now : Nat) (s : AuthS) :
    (∀ resp d, resp.success = true → resp.data = some d →
        (loadSubscription uid now (.ok resp) s).subscription = some d) ∧
    (∀ resp, resp.success = false ∨ resp.data = none →
        (loadSubscription uid now (.ok resp) s).subscription =
          some (defaultFreeSub uid now)) ∧
    (∀ msg, (loadSubscription uid now (.threw msg) s).subscription =
        some (defaultFreeSub uid now)) ∧
    (∀ r, (loadSubscription uid now r s).subscription ≠ none) := by
  refine ⟨?_, ?_, ?_, ?_⟩
  · rintro ⟨su, da⟩ d hsu hda
    subst hsu
    subst hda
    simp [loadSubscription]
  · rintro ⟨su, da⟩ h
    rcases h with h | h
    · subst h; cases da <;> simp [loadSubscription]
    · simp at h; subst h; cases su <;> simp [loadSubscription]
  · intro msg; simp [loadSubscription]
  · intro r
    cases r with
    | ok resp =>
        rcases resp with ⟨su, da⟩
        cases su <;> cases da <;> simp [loadSubscription]
    | threw msg => simp [loadSubscription]

/-- Witness for C7 at concrete outcomes: server data stored, unsuccessful
envelope defaults, thrown error defaults, and non-nullness. -/
theorem loadSubscription_always_sets_witness :
    (loadSubscription "u1" 0 (.ok { success := true, data := some subPro })
        (initState none)).subscription = some subPro ∧
    (loadSubscription "u1" 0 (.ok { success := false, data := none })
        (initState none)).subscription = some (defaultFreeSub "u1" 0) ∧
    (loadSubscription "u1" 0 (.threw "network error")
        (initState none)).subscription = some (defaultFreeSub "u1" 0) ∧
    (loadSubscription "u1" 0 (.threw "network error")
        (initState none)).subscription ≠ none :=
  ⟨(loadSubscription_always_sets "u1" 0 (initState none)).1 _ subPro rfl rfl,
   (loadSubscription_always_sets "u1" 0 (initState none)).2.1 _ (Or.inl rfl),
   (loadSubscription_always_sets "u1" 0 (initState none)).2.2.1 "network error",
   (loadSubscription_always_sets "u1" 0 (initState none)).2.2.2 (.threw "network error")⟩

/-- C10. The analysis mutation: when the trimmed, '@'-stripped username is
empty the mutation throws the empty-username error without calling the API;
when it is non-empty, a non-rate-limit API failure makes the mutation
resolve with demo results generated for the cleaned username, a rate-limit
error is re-thrown to the caller, and an API success is passed through. -/
theorem mutationFn_cases (username : String) :
    (cleanUsername username = "" →
      ∀ api, (mutationFn username api).apiCalled = false ∧
        (mutationFn username api).result =
          .error (.emptyUsername "Please enter an Instagram username")) ∧
    (cleanUsername username ≠ "" →
      (∀ msg, (mutationFn username (.failed msg)).apiCalled = true ∧
          (mutationFn username (.failed msg)).result =
            .ok (generateDemoResults (cleanUsername username))) ∧
      (∀ remaining resetIn,
          (mutationFn username (.rateLimit remaining resetIn)).result =
            .error (.rateLimited remaining resetIn)) ∧
      (∀ r, (mutationFn username (.ok r)).result = .ok r)) := by
  constructor
  · intro hc api
    have he : (cleanUsername username).isEmpty = true := by
      simp [String.isEmpty_iff, hc]
    cases api <;> simp [mutationFn, he]
  · intro hc
    have he : (cleanUsername username).isEmpty = false := by
      cases h : (cleanUsername username).isEmpty with
      | false => rfl
      | true => exact absurd ((String.isEmpty_iff _).mp h) hc
    exact ⟨fun msg => by simp [mutationFn, he],
           fun remaining resetIn => by simp [mutationFn, he],
           fun r => by simp [mutationFn, he]⟩

/-- Witness for C10: "@" cleans to the empty string and throws without an
API call; "@user" cleans to "user", so an API outage yields demo results
and a rate-limit error is re-thrown. -/
theorem mutationFn_cases_witness :
    ((mutationFn "@" (.failed "down")).apiCalled = false ∧
      (mutationFn "@" (.failed "down")).result =
        .error (.emptyUsername "Please enter an Instagram username")) ∧
    ((mutationFn "@user" (.failed "down")).apiCalled = true ∧
      (mutationFn "@user" (.failed "down")).result =
        .ok (generateDemoResults (cleanUsername "@user"))) ∧
    (mutationFn "@user" (.rateLimit 0 60)).result = .error (.rateLimited 0 60) :=
  ⟨(mutationFn_cases "@").1 (by decide) (.failed "down"),
   ((mutationFn_cases "@user").2 (by decide)).1 "down",
   ((mutationFn_cases "@user").2 (by decide)).2.1 0 60⟩

/-- The state `sAfterLoad` is reachable: initial state, bootstrap resolving
with `sess1`, business load settling with `[bizA]`. -/
theorem reachable_sAfterLoad : Reachable sAfterLoad :=
  Reachable.step
    (Reachable.step (Reachable.init none)
      (Step.bootstrap true (.resolved (some sess1) none) (initState none)))
    (Step.loadBiz (.ok { success := true, data := some [bizA] })
      (initializeAuth true (.resolved (some sess1) none) (initState none)))

/-- The state `sCycle` (completed derived-load cycle) is reachable. -/
theorem reachable_sCycle : Reachable sCycle :=
  Reachable.step reachable_sAfterLoad
    (Step.loadSub "u1" 0 (.ok { success := true, data := some subPro }) sAfterLoad)

/-- C1 counterexample: a reachable state with the selection key persisted,
where the sign-out transition's handling clears the in-memory fields but
leaves the persisted key "oslira-selected-business" in place — the handler
(AuthProvider.tsx lines 247-255) never touches localStorage; only the
`signOut` action (line 322) removes the key. -/
theorem signout_transition_keeps_persisted_key :
    Reachable sAfterLoad ∧
    sAfterLoad.persisted = some "a" ∧
    (onAuthStateChange true none sAfterLoad).session = none ∧
    (onAuthStateChange true none sAfterLoad).subscription = none ∧
    (onAuthStateChange true none sAfterLoad).persisted = some "a" ∧
    (onAuthStateChange true none sAfterLoad).persisted ≠ none :=
  ⟨reachable_sAfterLoad, rfl, rfl, rfl, rfl, by decide⟩

/-- C1 (amended). A sign-out transition delivered by the change stream
synchronously clears `session`, `user`, `isAuthenticated`, `businesses`,
`selectedBusiness` and `subscription`, but leaves the persisted selection
key untouched; the key is removed only by a successful `signOut` action. -/
theorem signout_transition_clears_memory_state (s : AuthS) :
    (onAuthStateChange true none s).session = none ∧
    (onAuthStateChange true none s).user = none ∧
    (onAuthStateChange true none s).isAuthenticated = false ∧
    (onAuthStateChange true none s).businesses = [] ∧
    (onAuthStateChange true none s).selectedBusiness = none ∧
    (onAuthStateChange true none s).subscription = none ∧
    (onAuthStateChange true none s).persisted = s.persisted ∧
    (∀ t : AuthS, (signOut none t).persisted = none) := by
  refine ⟨?_, ?_, ?_, ?_, ?_, ?_, ?_, fun t => ?_⟩ <;>
    simp [onAuthStateChange, signOut]

/-- C2 counterexample: a reachable state whose authenticated session has
completed its derived-load cycle (both loaders settled, `subscription`
holding the server record), from which one further reachable transition —
the sign-out clearing — makes `subscription` null again at a later point. -/
theorem subscription_null_after_later_signout :
    Reachable sCycle ∧
    sCycle.isAuthenticated = true ∧
    sCycle.subscription = some subPro ∧
    Step sCycle (onAuthStateChange true none sCycle) ∧
    Reachable (onAuthStateChange true none sCycle) ∧
    (onAuthStateChange true none sCycle).subscription = none :=
  ⟨reachable_sCycle, rfl, rfl, Step.authChange true none sCycle,
   Reachable.step reachable_sCycle (Step.authChange true none sCycle), rfl⟩

/-- C2 (amended). Once `subscription` is non-null it stays non-null across
every transition except the sign-out clearing: the only step that can make
it null again is the one that simultaneously clears session, user,
authentication flag, businesses and selection. -/
theorem subscription_nonnull_until_signout {s t : AuthS} (h : Step s t)
    (hs : s.subscription ≠ none) :
    t.subscription ≠ none ∨
      (t.session = none ∧ t.user = none ∧ t.isAuthenticated = false ∧
       t.businesses = [] ∧ t.selectedBusiness = none ∧ t.subscription = none) := by
  cases h with
  | bootstrap m r s =>
      left
      cases r with
      | threw msg => cases m <;> simpa [initializeAuth] using hs
      | resolved sess err =>
          cases m with
          | false => simpa [initializeAuth] using hs
          | true => cases sess <;> cases err <;> simpa [initializeAuth] using hs
  | authChange m ns s =>
      cases m with
      | false => exact Or.inl (by simpa [onAuthStateChange] using hs)
      | true =>
          cases ns with
          | none => exact Or.inr (by simp [onAuthStateChange])
          | some sess => exact Or.inl (by simpa [onAuthStateChange] using hs)
  | loadBiz r s =>
      left
      cases r with
      | ok resp =>
          rcases resp with ⟨su, da⟩
          cases su <;> cases da <;>
            simp only [loadBusinesses] <;>
            (try split) <;> (try split) <;> simpa using hs
      | threw msg => simpa [loadBusinesses] using hs
  | loadSub uid now r s =>
      left
      cases r with
      | ok resp =>
          rcases resp with ⟨su, da⟩
          cases su <;> cases da <;> simp [loadSubscription]
      | threw msg => simp [loadSubscription]
  | select bid s =>
      left
      unfold selectBusiness
      split <;> simpa using hs
  | signInAct e s =>
      left
      cases e <;> simpa [signInWithOAuth] using hs
  | signOutAct e s =>
      left
      cases e <;> simpa [signOut] using hs

/-- Witness for the amended C2: from `sCycle` (subscription non-null), a
selection step keeps it non-null or is the sign-out clearing. -/
theorem subscription_nonnull_until_signout_witness :
    (selectBusiness "a" sCycle).subscription ≠ none ∨
      ((selectBusiness "a" sCycle).session = none ∧
       (selectBusiness "a" sCycle).user = none ∧
       (selectBusiness "a" sCycle).isAuthenticated = false ∧
       (selectBusiness "a" sCycle).businesses = [] ∧
       (selectBusiness "a" sCycle).selectedBusiness = none ∧
       (selectBusiness "a" sCycle).subscription = none) :=
  subscription_nonnull_until_signout (Step.select "a" sCycle) (by decide)

/-- C4 counterexample: `getSession()` resolving with a provider-reported
failure (`sessionError ≠ null`, here a network failure message) is a
provider failure that is not mere absence of a session, yet bootstrap
leaves `error` unpopulated — it only logs the error and continues with the
unauthenticated shape (AuthProvider.tsx lines 161-164, 189-194). -/
theorem bootstrap_reported_error_not_surfaced :
    (initializeAuth true (.resolved none (some "Network request failed"))
        (initState none)).error = none ∧
    (initializeAuth true (.resolved none (some "Network request failed"))
        (initState none)).session = none ∧
    (initializeAuth true (.resolved none (some "Network request failed"))
        (initState none)).user = none ∧
    (initializeAuth true (.resolved none (some "Network request failed"))
        (initState none)).isAuthenticated = false :=
  ⟨rfl, rfl, rfl, rfl⟩

/-- C4 (amended). Only a thrown exception during bootstrap populates
`error` (with the exception's message) and forces the unauthenticated
shape; a fetch that resolves — cleanly with no session, or carrying a
provider-reported error, with or without a session — never touches
`error` and also yields the unauthenticated shape. -/
theorem bootstrap_error_surfacing (s : AuthS) :
    (∀ msg, (initializeAuth true (.threw msg) s).error = some msg ∧
        (initializeAuth true (.threw msg) s).session = none ∧
        (initializeAuth true (.threw msg) s).user = none ∧
        (initializeAuth true (.threw msg) s).isAuthenticated = false) ∧
    (∀ sess err, (sess = none ∨ err ≠ none) →
        (initializeAuth true (.resolved sess err) s).error = s.error ∧
        (initializeAuth true (.resolved sess err) s).session = none ∧
        (initializeAuth true (.resolved sess err) s).user = none ∧
        (initializeAuth true (.resolved sess err) s).isAuthenticated = false) := by
  constructor
  · intro msg
    simp [initializeAuth]
  · intro sess err h
    cases sess with
    | none => cases err <;> simp [initializeAuth]
    | some session =>
        cases err with
        | none =>
            rcases h with h | h
            · exact absurd h (by simp)
            · exact absurd rfl h
        | some e => simp [initializeAuth]

/-- Witness for the amended C4: a thrown "boom" surfaces as the error; a
resolve with a reported network failure leaves `error` as it was (null). -/
theorem bootstrap_error_surfacing_witness :
    ((initializeAuth true (.threw "boom") (initState none)).error = some "boom" ∧
     (initializeAuth true (.threw "boom") (initState none)).session = none ∧
     (initializeAuth true (.threw "boom") (initState none)).user = none ∧
     (initializeAuth true (.threw "boom") (initState none)).isAuthenticated = false) ∧
    ((initializeAuth true (.resolved none (some "Network request failed"))
        (initState none)).error = (initState none).error ∧
     (initializeAuth true (.resolved none (some "Network request failed"))
        (initState none)).session = none ∧
     (initializeAuth true (.resolved none (some "Network request failed"))
        (initState none)).user = none ∧
     (initializeAuth true (.resolved none (some "Network request failed"))
        (initState none)).isAuthenticated = false) :=
  ⟨(bootstrap_error_surfacing (initState none)).1 "boom",
   (bootstrap_error_surfacing (initState none)).2 none (some "Network request failed")
     (Or.inl rfl)⟩

/-- C5 counterexample: a reachable state where the business set is
non-empty yet the selected business is not an element of it — a second
business load (a refresh returning a different set) replaces the set but
leaves the earlier selection in place, because `loadBusinesses` only
assigns a selection when none exists. -/
theorem stale_selection_outside_business_set :
    Reachable sTwoLoads ∧
    sTwoLoads.businesses = [bizB] ∧
    sTwoLoads.businesses ≠ [] ∧
    sTwoLoads.selectedBusiness = some bizA ∧
    bizA ∉ sTwoLoads.businesses :=
  ⟨Reachable.step reachable_sAfterLoad
      (Step.loadBiz (.ok { success := true, data := some [bizB] }) sAfterLoad),
   rfl, by decide, rfl, by decide⟩

/-- C5 (amended). The sign-out transition clears the selection together
with the set; and whenever a transition changes the selection, the new
selection is either null (sign-out) or an element of the resulting business
set — but a transition that replaces the set without touching an existing
selection can leave that selection outside the current set. -/
theorem selection_membership_on_change :
    (∀ s, (onAuthStateChange true none s).businesses = [] ∧
        (onAuthStateChange true none s).selectedBusiness = none) ∧
    (∀ s t, Step s t → t.selectedBusiness ≠ s.selectedBusiness →
        t.selectedBusiness = none ∨
          ∃ b, t.selectedBusiness = some b ∧ b ∈ t.businesses) := by
  constructor
  · intro s
    simp [onAuthStateChange]
  · intro s t h hne
    cases h with
    | bootstrap m r s =>
        exfalso
        apply hne
        cases r with
        | threw msg => cases m <;> simp [initializeAuth]
        | resolved sess err =>
            cases m with
            | false => simp [initializeAuth]
            | true => cases sess <;> cases err <;> simp [initializeAuth]
    | authChange m ns s =>
        cases m with
        | false => exact absurd (by simp [onAuthStateChange]) hne
        | true =>
            cases ns with
            | none => exact Or.inl (by simp [onAuthStateChange])
            | some sess => exact absurd (by simp [onAuthStateChange]) hne
    | loadBiz r s =>
        cases r with
        | ok resp =>
            rcases resp with ⟨su, da⟩
            cases su with
            | false => exact absurd (by cases da <;> simp [loadBusinesses]) hne
            | true =>
                cases da with
                | none => exact absurd (by simp [loadBusinesses]) hne
                | some d =>
                    cases d with
                    | nil => exact absurd (by simp [loadBusinesses]) hne
                    | cons hd tl =>
                        by_cases hsel : s.selectedBusiness = none
                        · refine Or.inr ⟨hd, ?_, ?_⟩ <;>
                            simp [loadBusinesses, hsel]
                        · exact absurd (by simp [loadBusinesses, hsel]) hne
        | threw msg => exact absurd (by simp [loadBusinesses]) hne
    | loadSub uid now r s =>
        exfalso
        apply hne
        cases r with
        | ok resp =>
            rcases resp with ⟨su, da⟩
            cases su <;> cases da <;> simp [loadSubscription]
        | threw msg => simp [loadSubscription]
    | select bid s =>
        rcases hfind : s.businesses.find? (fun x => x.id == bid) with _ | c
        · exact absurd (by simp [selectBusiness, hfind]) hne
        · refine Or.inr ⟨c, by simp [selectBusiness, hfind], ?_⟩
          have hmem : c ∈ s.businesses := List.mem_of_find?_eq_some hfind
          simpa [selectBusiness, hfind] using hmem
    | signInAct e s =>
        exact absurd (by cases e <;> simp [signInWithOAuth]) hne
    | signOutAct e s =>
        exact absurd (by cases e <;> simp [signOut]) hne

/-- Witness for the amended C5: the sign-out clearing at the initial state,
and a concrete selection step whose new selection sits in the current set. -/
theorem selection_membership_on_change_witness :
    ((onAuthStateChange true none (initState none)).businesses = [] ∧
     (onAuthStateChange true none (initState none)).selectedBusiness = none) ∧
    ((selectBusiness "a" { initState none with businesses := [bizA] }).selectedBusiness = none ∨
      ∃ b, (selectBusiness "a" { initState none with businesses := [bizA] }).selectedBusiness = some b ∧
        b ∈ (selectBusiness "a" { initState none with businesses := [bizA] }).businesses) :=
  ⟨selection_membership_on_change.1 (initState none),
   selection_membership_on_change.2 _ _
     (Step.select "a" { initState none with businesses := [bizA] }) (by decide)⟩

end Oslira
